import Mathlib

/-!
Verification of the Farm Size vs Income simulator
(`src/Farm_Size_Income.py`).

Numeric values of the program (Python / numpy floats) are modelled as
rationals `ℚ`.  The one place where IEEE-754 special values matter —
division by `MLT = 0` inside `full_time_farmers` (numpy silently yields
`inf` / `nan` instead of raising) — is modelled separately by the
`NpFloat` type, which carries the special values `inf`, `neginf`, `nan`
alongside finite rationals.
-/

namespace FarmSizeIncome

/-- The per-farm agronomic parameters: `yieldPerHectare` (`YH`),
`materialCostPerHectare` (`MCH`) and `laborTimePerHectare` (`LTH`),
as read from the three sliders of the app. -/
structure FarmProfile where
  YH : ℚ
  MCH : ℚ
  LTH : ℚ
deriving DecidableEq

/-- The process-wide economic parameters: `cocoaMarketPrice` (`CMP`),
`standardLaborTimePerHectare` (`standard_LTH`), `maxLaborTime` (`MLT`)
and `laborCost` (`LC`), as read from the four number inputs of the app. -/
structure EconomicParameters where
  CMP : ℚ
  standard_LTH : ℚ
  MLT : ℚ
  LC : ℚ
deriving DecidableEq

/-- The ranges the three profile sliders enforce in the source
(`min_value` / `max_value` of the `st.slider` calls, lines 104-115):
`YH ∈ [0, 3000]`, `MCH ∈ [0, 1000]`, `LTH ∈ [0, 500]`. -/
def FarmProfile.valid (p : FarmProfile) : Prop :=
  0 ≤ p.YH ∧ p.YH ≤ 3000 ∧ 0 ≤ p.MCH ∧ p.MCH ≤ 1000 ∧ 0 ≤ p.LTH ∧ p.LTH ≤ 500

instance (p : FarmProfile) : Decidable p.valid := by
  unfold FarmProfile.valid; infer_instance

/-- Line 67 of the source: `hired_labor_hours = max(0, (LTH * size) - MLT)`. -/
def hired_labor_hours (LTH MLT size : ℚ) : ℚ :=
  max 0 (LTH * size - MLT)

/-- Lines 61-70 of the source: the `simulate_income` function.  For each
farm size it computes `yield_total = YH * size`,
`material_cost_total = MCH * size`,
`hired_labor_hours = max(0, LTH * size - MLT)` and appends
`yield_total * CMP - material_cost_total - hired_labor_hours * LC`. -/
def simulate_income (farm_sizes : List ℚ) (YH MCH LTH CMP MLT LC : ℚ) : List ℚ :=
  farm_sizes.map (fun size =>
    let yield_total := YH * size
    let material_cost_total := MCH * size
    let hired := hired_labor_hours LTH MLT size
    yield_total * CMP - material_cost_total - hired * LC)

/-- The income of one farm size, extracted from the loop body of
`simulate_income` (lines 64-68). -/
def incomeAt (p : FarmProfile) (e : EconomicParameters) (s : ℚ) : ℚ :=
  p.YH * s * e.CMP - p.MCH * s - hired_labor_hours p.LTH e.MLT s * e.LC

/-- `simulate_income` applied to the fields of a `FarmProfile` and an
`EconomicParameters`, the way line 121 of the source calls it. -/
def simulateRun (farm_sizes : List ℚ) (p : FarmProfile) (e : EconomicParameters) : List ℚ :=
  simulate_income farm_sizes p.YH p.MCH p.LTH e.CMP e.MLT e.LC

/-- Lines 124-125 of the source, per farm size:
`np.ceil(LTH * s / MLT)`, as an integer (the finite, `MLT ≠ 0` case;
`full_time_farmers_np` below covers the IEEE special values). -/
def full_time_farmers (LTH MLT s : ℚ) : ℤ :=
  ⌈LTH * s / MLT⌉

/-- `full_time_farmers` applied to the fields of a `FarmProfile` and an
`EconomicParameters`. -/
def fullTimeFarmerCount (p : FarmProfile) (e : EconomicParameters) (s : ℚ) : ℤ :=
  full_time_farmers p.LTH e.MLT s

/-- Line 80 of the source: `area_one_farmer_can_manage = MLT / standard_LTH`,
a scalar computed once from the economic parameters, before and outside the
per-farm loop; no farm size enters it. -/
def area_one_farmer_can_manage (e : EconomicParameters) : ℚ :=
  e.MLT / e.standard_LTH

/-- A numpy double, at the granularity this development needs: a finite
value (modelled exactly as a rational) or one of the IEEE special values
`inf`, `-inf`, `nan`. -/
inductive NpFloat where
  | finite : ℚ → NpFloat
  | inf : NpFloat
  | neginf : NpFloat
  | nan : NpFloat
deriving DecidableEq

/-- numpy elementwise division.  On finite operands with a zero divisor it
does not raise: it emits a `RuntimeWarning` and produces `inf`, `-inf` or
`nan` by the sign of the numerator. -/
def npDiv : NpFloat → NpFloat → NpFloat
  | NpFloat.finite a, NpFloat.finite b =>
      if b = 0 then
        if 0 < a then NpFloat.inf
        else if a < 0 then NpFloat.neginf
        else NpFloat.nan
      else NpFloat.finite (a / b)
  | _, _ => NpFloat.nan

/-- `np.ceil`: the ceiling on finite values; `inf`, `-inf` and `nan` are
mapped to themselves. -/
def npCeil : NpFloat → NpFloat
  | NpFloat.finite a => NpFloat.finite (⌈a⌉ : ℤ)
  | x => x

/-- Line 125 of the source with numpy semantics kept:
`np.ceil(labor_times / MLT)` where `labor_times = LTH * s` (line 124). -/
def full_time_farmers_np (LTH MLT s : ℚ) : NpFloat :=
  npCeil (npDiv (NpFloat.finite (LTH * s)) (NpFloat.finite MLT))

/-- Whenever the divisor is nonzero the numpy model agrees with the
finite model `full_time_farmers`. -/
lemma full_time_farmers_np_of_ne_zero (LTH MLT s : ℚ) (h : MLT ≠ 0) :
    full_time_farmers_np LTH MLT s = NpFloat.finite (full_time_farmers LTH MLT s) := by
  simp [full_time_farmers_np, npDiv, npCeil, full_time_farmers, h]

/-- The concrete scenario of the spec: the default Farm 1 profile
`YH = 500, MCH = 200, LTH = 100`. -/
def p0 : FarmProfile := FarmProfile.mk 500 200 100

/-- The concrete scenario of the spec: the default economic parameters
`CMP = 2.5, standard_LTH = 100, MLT = 200, LC = 10`. -/
def e0 : EconomicParameters := EconomicParameters.mk (5/2) 100 200 10

/-- C1: `simulate_income` returns one income per input farm size, in input
order, and for farm size `s` the income is
`YH*s*CMP - MCH*s - max(0, LTH*s - MLT)*LC`. -/
theorem simulate_income_per_size (sizes : List ℚ) (p : FarmProfile) (e : EconomicParameters) :
    (simulateRun sizes p e).length = sizes.length ∧
    ∀ i : ℕ, (simulateRun sizes p e)[i]? =
      (sizes[i]?).map (fun s =>
        p.YH * s * e.CMP - p.MCH * s - max 0 (p.LTH * s - e.MLT) * e.LC) := by
  constructor
  · simp [simulateRun, simulate_income]
  · intro i
    simp [simulateRun, simulate_income, hired_labor_hours]

/-- C2: for `MLT > 0` the reported farmer count is exactly the ceiling of
`LTH*s / MLT`: it equals `⌈LTH*s/MLT⌉`, it bounds `LTH*s/MLT` from above,
and dropping one unit falls below `LTH*s/MLT`. -/
theorem full_time_farmers_is_ceiling (p : FarmProfile) (e : EconomicParameters) (s : ℚ)
    (hMLT : 0 < e.MLT) :
    fullTimeFarmerCount p e s = ⌈p.LTH * s / e.MLT⌉ ∧
    p.LTH * s / e.MLT ≤ (fullTimeFarmerCount p e s : ℚ) ∧
    (fullTimeFarmerCount p e s : ℚ) - 1 < p.LTH * s / e.MLT := by
  refine ⟨rfl, Int.le_ceil _, ?_⟩
  have h := Int.ceil_lt_add_one (p.LTH * s / e.MLT)
  have : (fullTimeFarmerCount p e s : ℚ) = (⌈p.LTH * s / e.MLT⌉ : ℚ) := rfl
  rw [this]
  linarith

theorem full_time_farmers_is_ceiling_witness :
    0 < e0.MLT ∧
    (fullTimeFarmerCount p0 e0 3 = ⌈p0.LTH * 3 / e0.MLT⌉ ∧
     p0.LTH * 3 / e0.MLT ≤ (fullTimeFarmerCount p0 e0 3 : ℚ) ∧
     (fullTimeFarmerCount p0 e0 3 : ℚ) - 1 < p0.LTH * 3 / e0.MLT) :=
  ⟨by norm_num [e0], full_time_farmers_is_ceiling p0 e0 3 (by norm_num [e0])⟩

/-- C3: at `MLT = 0` the source does not raise a DomainError: numpy
division by zero silently yields `inf` when the labor demand is positive
(`nan` when it is zero), `np.ceil` keeps it, and the auxiliary area
calculation (which divides by `standard_LTH`, not by `MLT`) returns `0`
without any error, so a complete result sequence is still produced. -/
theorem farmer_count_silent_infinity_at_MLT_zero :
    full_time_farmers_np 100 0 1 = NpFloat.inf ∧
    full_time_farmers_np 0 0 1 = NpFloat.nan ∧
    area_one_farmer_can_manage (EconomicParameters.mk (5/2) 100 0 10) = 0 := by
  refine ⟨?_, ?_, ?_⟩
  · norm_num [full_time_farmers_np, npDiv, npCeil]
  · norm_num [full_time_farmers_np, npDiv, npCeil]
  · norm_num [area_one_farmer_can_manage]

/-- C4 counterexample: the slider-reachable profile with `LTH = 0`
(yield 500, material cost 200) under `MLT = 200 > 0` at farm size
`1 > 0` gets a farmer count of `0 < 1`. -/
theorem farmer_count_zero_at_zero_LTH :
    (FarmProfile.mk 500 200 0).valid ∧
    (0:ℚ) < (EconomicParameters.mk (5/2) 100 200 10).MLT ∧ (0:ℚ) < 1 ∧
    fullTimeFarmerCount (FarmProfile.mk 500 200 0) (EconomicParameters.mk (5/2) 100 200 10) 1 < 1 := by
  refine ⟨?_, by norm_num, by norm_num, ?_⟩
  · norm_num [FarmProfile.valid]
  · norm_num [fullTimeFarmerCount, full_time_farmers]

/-- C4 amended: with `MLT > 0`, `LTH > 0` and farm size `s > 0` the
farmer count is at least `1`. -/
theorem farmer_count_ge_one_of_pos_LTH (p : FarmProfile) (e : EconomicParameters)
    (hMLT : 0 < e.MLT) (hLTH : 0 < p.LTH) (s : ℚ) (hs : 0 < s) :
    1 ≤ fullTimeFarmerCount p e s := by
  have hq : 0 < p.LTH * s / e.MLT := div_pos (mul_pos hLTH hs) hMLT
  have h := Int.ceil_pos.mpr hq
  have : fullTimeFarmerCount p e s = ⌈p.LTH * s / e.MLT⌉ := rfl
  omega

theorem farmer_count_ge_one_of_pos_LTH_witness :
    0 < e0.MLT ∧ 0 < p0.LTH ∧ (0:ℚ) < 1 ∧ 1 ≤ fullTimeFarmerCount p0 e0 1 :=
  ⟨by norm_num [e0], by norm_num [p0], by norm_num,
   farmer_count_ge_one_of_pos_LTH p0 e0 (by norm_num [e0]) (by norm_num [p0]) 1 (by norm_num)⟩

/-- C5: with `MLT > 0` (and nonnegative labor demand) the continuous
hired-labor quantity is positive exactly when the ceiling headcount
reaches `2`. -/
theorem hired_labor_pos_iff_two_farmers (p : FarmProfile) (e : EconomicParameters) (s : ℚ)
    (hMLT : 0 < e.MLT) (hnn : 0 ≤ p.LTH * s) :
    0 < hired_labor_hours p.LTH e.MLT s ↔ 2 ≤ fullTimeFarmerCount p e s := by
  have h1 : 0 < hired_labor_hours p.LTH e.MLT s ↔ e.MLT < p.LTH * s := by
    unfold hired_labor_hours
    rw [lt_max_iff]
    constructor
    · rintro (h | h)
      · exact absurd h (lt_irrefl 0)
      · linarith
    · intro h; right; linarith
  have h2 : 2 ≤ fullTimeFarmerCount p e s ↔ (1:ℚ) < p.LTH * s / e.MLT := by
    have hc : fullTimeFarmerCount p e s = ⌈p.LTH * s / e.MLT⌉ := rfl
    rw [hc, show (2:ℤ) = 1 + 1 by norm_num, Int.add_one_le_iff, Int.lt_ceil]
    norm_num
  have h3 : (1:ℚ) < p.LTH * s / e.MLT ↔ e.MLT < p.LTH * s := by
    rw [lt_div_iff hMLT, one_mul]
  rw [h1, h2, h3]

theorem hired_labor_pos_iff_two_farmers_witness :
    0 < e0.MLT ∧ 0 ≤ p0.LTH * 3 ∧
    (0 < hired_labor_hours p0.LTH e0.MLT 3 ↔ 2 ≤ fullTimeFarmerCount p0 e0 3) :=
  ⟨by norm_num [e0], by norm_num [p0],
   hired_labor_pos_iff_two_farmers p0 e0 3 (by norm_num [e0]) (by norm_num [p0])⟩

/-- C6: for a slider-reachable profile (in particular `LTH ≥ 0`) and
`MLT > 0` the farmer count is non-decreasing in farm size. -/
theorem farmer_count_monotone (p : FarmProfile) (e : EconomicParameters)
    (hp : p.valid) (hMLT : 0 < e.MLT) (s1 s2 : ℚ) (hs : s1 ≤ s2) :
    fullTimeFarmerCount p e s1 ≤ fullTimeFarmerCount p e s2 := by
  have hLTH : 0 ≤ p.LTH := hp.2.2.2.2.1
  unfold fullTimeFarmerCount full_time_farmers
  apply Int.ceil_le_ceil
  rw [div_le_div_iff hMLT hMLT]
  exact mul_le_mul_of_nonneg_right (mul_le_mul_of_nonneg_left hs hLTH) hMLT.le

theorem farmer_count_monotone_witness :
    p0.valid ∧ 0 < e0.MLT ∧ (1:ℚ) ≤ 3 ∧
    fullTimeFarmerCount p0 e0 1 ≤ fullTimeFarmerCount p0 e0 3 :=
  ⟨by norm_num [p0, FarmProfile.valid], by norm_num [e0], by norm_num,
   farmer_count_monotone p0 e0 (by norm_num [p0, FarmProfile.valid]) (by norm_num [e0])
     1 3 (by norm_num)⟩

/-- C7: with profitable revenue (`YH*CMP > MCH`), `LTH > 0`, `LC > 0`,
`MLT > 0`: below the crossing point `s* = MLT / LTH` the income increment
per hectare is `YH*CMP - MCH`; beyond `s*` it is
`YH*CMP - MCH - LTH*LC`, which is strictly smaller. -/
theorem income_slope_change (p : FarmProfile) (e : EconomicParameters)
    (s1 s2 t1 t2 : ℚ)
    (hRev : p.MCH < p.YH * e.CMP) (hLTH : 0 < p.LTH) (hLC : 0 < e.LC)
    (hMLT : 0 < e.MLT)
    (hs1 : s1 ≤ e.MLT / p.LTH) (hs2 : s2 ≤ e.MLT / p.LTH)
    (ht1 : e.MLT / p.LTH ≤ t1) (ht2 : e.MLT / p.LTH ≤ t2) :
    incomeAt p e s2 - incomeAt p e s1 = (p.YH * e.CMP - p.MCH) * (s2 - s1) ∧
    incomeAt p e t2 - incomeAt p e t1 =
      (p.YH * e.CMP - p.MCH - p.LTH * e.LC) * (t2 - t1) ∧
    p.YH * e.CMP - p.MCH - p.LTH * e.LC < p.YH * e.CMP - p.MCH := by
  have hbelow : ∀ s : ℚ, s ≤ e.MLT / p.LTH → hired_labor_hours p.LTH e.MLT s = 0 := by
    intro s hs
    have h := (le_div_iff hLTH).mp hs
    unfold hired_labor_hours
    apply max_eq_left
    nlinarith
  have habove : ∀ t : ℚ, e.MLT / p.LTH ≤ t →
      hired_labor_hours p.LTH e.MLT t = p.LTH * t - e.MLT := by
    intro t ht
    have h := (div_le_iff hLTH).mp ht
    unfold hired_labor_hours
    apply max_eq_right
    nlinarith
  refine ⟨?_, ?_, ?_⟩
  · rw [incomeAt, incomeAt, hbelow s1 hs1, hbelow s2 hs2]; ring
  · rw [incomeAt, incomeAt, habove t1 ht1, habove t2 ht2]; ring
  · nlinarith [mul_pos hLTH hLC]

theorem income_slope_change_witness :
    p0.MCH < p0.YH * e0.CMP ∧ 0 < p0.LTH ∧ 0 < e0.LC ∧ 0 < e0.MLT ∧
    (1:ℚ) ≤ e0.MLT / p0.LTH ∧ (2:ℚ) ≤ e0.MLT / p0.LTH ∧
    e0.MLT / p0.LTH ≤ (3:ℚ) ∧ e0.MLT / p0.LTH ≤ (4:ℚ) ∧
    (incomeAt p0 e0 2 - incomeAt p0 e0 1 = (p0.YH * e0.CMP - p0.MCH) * (2 - 1) ∧
     incomeAt p0 e0 4 - incomeAt p0 e0 3 =
       (p0.YH * e0.CMP - p0.MCH - p0.LTH * e0.LC) * (4 - 3) ∧
     p0.YH * e0.CMP - p0.MCH - p0.LTH * e0.LC < p0.YH * e0.CMP - p0.MCH) :=
  ⟨by norm_num [p0, e0], by norm_num [p0], by norm_num [e0], by norm_num [e0],
   by norm_num [p0, e0], by norm_num [p0, e0], by norm_num [p0, e0], by norm_num [p0, e0],
   income_slope_change p0 e0 1 2 3 4
     (by norm_num [p0, e0]) (by norm_num [p0]) (by norm_num [e0]) (by norm_num [e0])
     (by norm_num [p0, e0]) (by norm_num [p0, e0]) (by norm_num [p0, e0])
     (by norm_num [p0, e0])⟩

/-- C8: at farm size `0` (with `MLT > 0`) the income is `0` and the
farmer count is `0`. -/
theorem zero_size_income_and_farmers (p : FarmProfile) (e : EconomicParameters)
    (hMLT : 0 < e.MLT) :
    incomeAt p e 0 = 0 ∧ fullTimeFarmerCount p e 0 = 0 := by
  constructor
  · have hmax : hired_labor_hours p.LTH e.MLT 0 = 0 := by
      unfold hired_labor_hours
      rw [mul_zero, zero_sub]
      exact max_eq_left (by linarith)
    simp [incomeAt, hmax]
  · simp [fullTimeFarmerCount, full_time_farmers]

theorem zero_size_income_and_farmers_witness :
    0 < e0.MLT ∧ (incomeAt p0 e0 0 = 0 ∧ fullTimeFarmerCount p0 e0 0 = 0) :=
  ⟨by norm_num [e0], zero_size_income_and_farmers p0 e0 (by norm_num [e0])⟩

/-- C9: for `standard_LTH ≠ 0` the auxiliary scalar is
`MLT / standard_LTH` — a function of the economic parameters alone,
computed independently of any farm size — and at `MLT = 200`,
`standard_LTH = 100` it equals `2`. -/
theorem area_manageable_alone_spec (e : EconomicParameters) (h : e.standard_LTH ≠ 0) :
    area_one_farmer_can_manage e = e.MLT / e.standard_LTH ∧
    (e.MLT = 200 → e.standard_LTH = 100 → area_one_farmer_can_manage e = 2) := by
  refine ⟨rfl, ?_⟩
  intro h1 h2
  rw [area_one_farmer_can_manage, h1, h2]
  norm_num

theorem area_manageable_alone_spec_witness :
    e0.standard_LTH ≠ 0 ∧
    (area_one_farmer_can_manage e0 = e0.MLT / e0.standard_LTH ∧
     (e0.MLT = 200 → e0.standard_LTH = 100 → area_one_farmer_can_manage e0 = 2)) :=
  ⟨by norm_num [e0], area_manageable_alone_spec e0 (by norm_num [e0])⟩

/-- C10: the income sequence does not depend on `standard_LTH`: two
parameter sets agreeing on `CMP`, `MLT` and `LC` give identical
`simulate_income` outputs for every size list and profile. -/
theorem income_ignores_standard_LTH (sizes : List ℚ) (p : FarmProfile)
    (e1 e2 : EconomicParameters) (hCMP : e1.CMP = e2.CMP) (hMLT : e1.MLT = e2.MLT)
    (hLC : e1.LC = e2.LC) :
    simulateRun sizes p e1 = simulateRun sizes p e2 := by
  unfold simulateRun
  rw [hCMP, hMLT, hLC]

theorem income_ignores_standard_LTH_witness :
    e0.CMP = (EconomicParameters.mk (5/2) 777 200 10).CMP ∧
    e0.MLT = (EconomicParameters.mk (5/2) 777 200 10).MLT ∧
    e0.LC = (EconomicParameters.mk (5/2) 777 200 10).LC ∧
    simulateRun [1, 2, 3] p0 e0 =
      simulateRun [1, 2, 3] p0 (EconomicParameters.mk (5/2) 777 200 10) :=
  ⟨by norm_num [e0], by norm_num [e0], by norm_num [e0],
   income_ignores_standard_LTH [1, 2, 3] p0 e0 (EconomicParameters.mk (5/2) 777 200 10)
     (by norm_num [e0]) (by norm_num [e0]) (by norm_num [e0])⟩

end FarmSizeIncome
